import Mathlib

/-!
# AI-PRO-QUIZ: verification of the quiz session state machine

Shallow embedding of the session-handling core of the repository:

* `src/telegram-bot/bot.py` — the bot's `user_sessions` dictionary and the
  handlers `quiz_command`, `send_question`, `answer_callback`;
* `src/app/models.py` — the `QuizRequest` / `MCQ` / `MCQOption` pydantic
  models (field validation);
* `src/app/main.py` — the `/api/quiz/generate` endpoint, which validates the
  request and maps content-generation failures to HTTP error statuses.

The Groq call in `src/app/services.py` is an external effect; its result is a
parameter (`ProviderResult`) of the embedded endpoint: either a parsed
question list, a JSON-decode failure (`ValueError` → HTTP 400), or any other
upstream failure (`Exception` → HTTP 500).

Python `dict` values are mutated in place; the embedding passes the session
store explicitly and returns every intermediate store that exists at an
`await` (observable) point of the handler.
-/

namespace AIQuiz

/-- `MCQOption` from `src/app/models.py`: the four labeled option texts. -/
structure MCQOption where
  A : String
  B : String
  C : String
  D : String
deriving DecidableEq, Repr

/-- `MCQ` from `src/app/models.py`: one question. `correct_answer` is
constrained by the pydantic pattern `^[A-D]$`. -/
structure MCQ where
  question : String
  options : MCQOption
  correct_answer : String
deriving DecidableEq, Repr

/-- The pydantic constraint `pattern="^[A-D]$"` on `MCQ.correct_answer`. -/
def validLabel (l : String) : Prop :=
  l = "A" ∨ l = "B" ∨ l = "C" ∨ l = "D"

instance (l : String) : Decidable (validLabel l) := by
  unfold validLabel; infer_instance

/-- One entry of the bot's `user_sessions` dictionary (`bot.py` lines
138-143): the per-user quiz session. Indices and scores start at 0 and are
only ever incremented, so `Nat` is faithful to the Python ints. -/
structure Session where
  topic : String
  questions : List MCQ
  current_question : Nat
  score : Nat
deriving DecidableEq, Repr

/-- The `user_sessions : Dict[int, dict]` global of `bot.py`, as a map from
Telegram user id to the at-most-one active session. -/
def Store := Int → Option Session

/-- Dictionary lookup `user_sessions.get(user_id)`. -/
def Store.get (st : Store) (user_id : Int) : Option Session := st user_id

/-- Dictionary write `user_sessions[user_id] = session`. -/
def Store.set (st : Store) (user_id : Int) (s : Session) : Store :=
  fun u => if u = user_id then some s else st u

/-- Dictionary delete `del user_sessions[user_id]`. -/
def Store.remove (st : Store) (user_id : Int) : Store :=
  fun u => if u = user_id then none else st u

/-- The empty `user_sessions` dictionary. -/
def Store.empty : Store := fun _ => none

/-- Result tier, from the conditional expression in the result message of
`send_question` (`bot.py` line 204): `top` renders as "🏆 Excellent!",
`middle` as "👍 Good job!", `low` as "📚 Keep learning!". -/
inductive Tier where
  | top
  | middle
  | low
deriving DecidableEq, Repr

/-- `'🏆 Excellent!' if percentage >= 80 else '👍 Good job!' if
percentage >= 60 else '📚 Keep learning!'` (`bot.py` line 204). -/
def resultTier (percentage : ℚ) : Tier :=
  if 80 ≤ percentage then .top
  else if 60 ≤ percentage then .middle
  else .low

/-- What `send_question` (`bot.py` lines 179-261) sends to the user:
nothing (session absent: the function logs and returns), the final result
(quiz finished), or the next question. The percentage is carried exactly as
a rational; the Python float `(score / total) * 100` and its `.1f`
formatting agree with the exact value at every tier boundary reachable with
`total ≤ 30`. -/
inductive SendOutcome where
  | noSession
  | showResult (score total : Nat) (percentage : ℚ) (tier : Tier)
  | showQuestion (index total : Nat) (question : MCQ)
deriving DecidableEq, Repr

/-- `send_question(update, context, user_id)` from `bot.py` lines 179-261:
looks the session up; if `current_question >= len(questions)` it reports the
final result and deletes the session, otherwise it sends the question at
`current_question`. Returns the outcome and the store after the call. -/
def send_question (store : Store) (user_id : Int) : SendOutcome × Store :=
  match store.get user_id with
  | none => (.noSession, store)
  | some session =>
    let current_idx := session.current_question
    let questions := session.questions
    if h : questions.length ≤ current_idx then
      let score := session.score
      let total := questions.length
      let percentage : ℚ := (score : ℚ) / (total : ℚ) * 100
      (.showResult score total percentage (resultTier percentage),
       store.remove user_id)
    else
      (.showQuestion current_idx questions.length
        (questions.get ⟨current_idx, Nat.lt_of_not_le h⟩), store)

/-! ## Callback-data parsing (`bot.py` lines 272-273)

`_, selected_answer, user_id_str = query.data.split("_")` followed by
`user_id = int(user_id_str)`.  The split requires exactly three parts
(otherwise Python raises `ValueError` from the unpacking), and `int` requires
an optionally signed digit string (otherwise Python raises `ValueError`).
Neither exception is caught inside `answer_callback`. -/

/-- Python's `str.split("_")` on the character list of the string. -/
def splitUnderscore : List Char → List Char → List (List Char)
  | [], acc => [acc.reverse]
  | c :: cs, acc =>
    if c = '_' then acc.reverse :: splitUnderscore cs []
    else splitUnderscore cs (c :: acc)

/-- One decimal digit, else `none`. -/
def digitVal (c : Char) : Option Nat :=
  if '0' ≤ c ∧ c ≤ '9' then some (c.toNat - '0'.toNat) else none

/-- Accumulate a digit string left to right; `none` on a non-digit. -/
def parseDigitsAux : List Char → Nat → Option Nat
  | [], acc => some acc
  | c :: cs, acc =>
    match digitVal c with
    | some d => parseDigitsAux cs (acc * 10 + d)
    | none => none

/-- Python `int(s)` on an optionally signed digit string; `none` models the
`ValueError` raised on anything else. -/
def parseInt : List Char → Option Int
  | [] => none
  | '-' :: rest =>
    if rest = [] then none else (parseDigitsAux rest 0).map (fun n => -(n : Int))
  | '+' :: rest =>
    if rest = [] then none else (parseDigitsAux rest 0).map (fun n => (n : Int))
  | cs => (parseDigitsAux cs 0).map (fun n => (n : Int))

/-- Lines 272-273 of `bot.py`: split the callback data on `_`, require
exactly three parts, and parse the third as an integer.  `none` models a
`ValueError` escaping the handler (there is no `try` around these lines). -/
def parseCallbackData (data : String) : Option (String × Int) :=
  match splitUnderscore data.toList [] with
  | [_, label, uidStr] =>
    match parseInt uidStr with
    | some uid => some (String.mk label, uid)
    | none => none
  | _ => none

/-- The outcome of `answer_callback` (`bot.py` lines 264-339).
`parseError` marks the uncaught `ValueError` from lines 272-273;
`indexError` marks the uncaught `IndexError` from
`session["questions"][current_idx]` (line 290) when the index is out of
range; `graded` carries the grading shown at line 331 and the outcome of the
chained `send_question` (line 339). -/
inductive AnswerOutcome where
  | parseError
  | notYourQuiz
  | noSession
  | indexError
  | graded (is_correct : Bool) (selected correct : String) (next : SendOutcome)
deriving DecidableEq, Repr

/-- The observable store states during one `answer_callback` run:
`midStore` is the store at the `query.edit_message_text` await (line 331,
after `score` was updated at line 300 but before `current_question` advances
at line 334); `advStore` is the store during the `asyncio.sleep(2)` (line
338, after the advance); `finalStore` is the store after the chained
`send_question` (line 339) returns. -/
structure AnswerResult where
  outcome : AnswerOutcome
  midStore : Store
  advStore : Store
  finalStore : Store

/-- The session after the grading step of `answer_callback`
(`bot.py` lines 295-300): `session["score"] += 1` exactly when the selected
label equals the correct one. -/
def gradedSession (session : Session) (is_correct : Bool) : Session :=
  if is_correct then { session with score := session.score + 1 } else session

/-- The session after the advance step of `answer_callback`
(`bot.py` line 334): `session["current_question"] += 1`, applied to the
graded session. -/
def advancedSession (session : Session) (is_correct : Bool) : Session :=
  { gradedSession session is_correct with
    current_question := (gradedSession session is_correct).current_question + 1 }

/-- Lines 289-339 of `answer_callback`: the part that runs once a session
was found.  `session["questions"][current_idx]` (line 290) raises
`IndexError` when the index is out of range; otherwise the answer is graded
(line 295), the score updated in place (line 300), the message edited (line
331, the `midStore` point), the index advanced (line 334, the `advStore`
point) and the next question sent (line 339). -/
def grade_answer (store : Store) (user_id : Int) (selected_answer : String)
    (session : Session) : AnswerResult :=
  if hidx : session.questions.length ≤ session.current_question then
    ⟨.indexError, store, store, store⟩
  else
    let question := session.questions.get
      ⟨session.current_question, Nat.lt_of_not_le hidx⟩
    let is_correct := selected_answer == question.correct_answer
    let midStore := store.set user_id (gradedSession session is_correct)
    let advStore := midStore.set user_id (advancedSession session is_correct)
    let next := send_question advStore user_id
    ⟨.graded is_correct selected_answer question.correct_answer next.1,
     midStore, advStore, next.2⟩

/-- Lines 278-286 of `answer_callback`: verify the presser against the user
id embedded in the button payload, then look the session up. -/
def answer_callback_core (store : Store) (effectiveUser : Int)
    (selected_answer : String) (user_id : Int) : AnswerResult :=
  if effectiveUser ≠ user_id then ⟨.notYourQuiz, store, store, store⟩
  else
    match store.get user_id with
    | none => ⟨.noSession, store, store, store⟩
    | some session => grade_answer store user_id selected_answer session

/-- `answer_callback(update, context)` from `bot.py` lines 264-339, with the
presser's identity `effectiveUser` (`update.effective_user.id`) and the
button payload `data` (`query.data`) made explicit.  Order as in the source:
parse the data (272-273), verify the presser against the embedded user id
(278-280), look the session up (282-286), grade and advance (289-339). -/
def answer_callback (store : Store) (effectiveUser : Int) (data : String) :
    AnswerResult :=
  match parseCallbackData data with
  | none => ⟨.parseError, store, store, store⟩
  | some (selected_answer, user_id) =>
    answer_callback_core store effectiveUser selected_answer user_id

/-! ## Starting a quiz

`quiz_command` in `bot.py` (lines 76-176) parses `/quiz <topic> <number>`,
rejects a question count outside `[3, 30]`, POSTs
`{"topic": topic, "num_questions": num_questions}` to
`/api/quiz/generate`, and on HTTP 200 stores a fresh session and sends the
first question.  The endpoint (`src/app/main.py` lines 50-67) first runs the
pydantic validation of `QuizRequest` (`src/app/models.py` lines 5-7) — a
failure is an HTTP 422 and the Groq service is never invoked — and then calls
`GroqService.generate_quiz`, mapping a `ValueError` (malformed JSON from the
model) to HTTP 400 and any other exception to HTTP 500. -/

/-- The result of the external Groq call inside
`GroqService.generate_quiz` (`src/app/services.py` lines 37-80), after the
service's own parsing: a parsed question list, a JSON-decode failure
(re-raised as `ValueError`), or any other upstream failure. -/
inductive ProviderResult where
  | ok (questions : List MCQ)
  | jsonError
  | upstreamError
deriving DecidableEq, Repr

/-- Pydantic validation of `QuizRequest` (`src/app/models.py` lines 5-7):
`topic` of length 1-100 and `num_questions` in `[3, 30]`. -/
def quizRequestValid (topic : String) (num_questions : Int) : Bool :=
  decide (1 ≤ topic.length) && decide (topic.length ≤ 100) &&
  decide (3 ≤ num_questions) && decide (num_questions ≤ 30)

/-- What `/api/quiz/generate` answers with: an HTTP 200 `QuizResponse`, a
422 pydantic validation error, a 400 (`ValueError` from the service), or a
500 (any other exception), per `src/app/main.py` lines 50-67. -/
inductive BackendResult where
  | ok (topic : String) (questions : List MCQ)
  | validationError
  | badRequest
  | serverError
deriving DecidableEq, Repr

/-- The HTTP status carried by each `BackendResult`. -/
def statusOf : BackendResult → Nat
  | .ok _ _ => 200
  | .validationError => 422
  | .badRequest => 400
  | .serverError => 500

/-- The `/api/quiz/generate` endpoint (`src/app/main.py` lines 50-67
together with the `QuizRequest` validation of `src/app/models.py`): the
boolean records whether the Groq content provider was invoked — pydantic
runs first, so a validation failure never reaches the provider.  On success
the response echoes the request topic (`QuizResponse(topic=topic, ...)`,
`src/app/services.py` line 75). -/
def backend_generate_quiz (topic : String) (num_questions : Int)
    (provider : ProviderResult) : BackendResult × Bool :=
  if quizRequestValid topic num_questions then
    match provider with
    | .ok qs => (.ok topic qs, true)
    | .jsonError => (.badRequest, true)
    | .upstreamError => (.serverError, true)
  else (.validationError, false)

/-- The fate of the bot's HTTP POST to the backend (`bot.py` lines 120-124):
the request can time out (`requests.exceptions.Timeout`), fail to connect
(`requests.exceptions.ConnectionError`), or deliver a response computed by
the backend from the provider's behaviour. -/
inductive BackendCall where
  | timeout
  | connectionError
  | delivered (provider : ProviderResult)

/-- What `quiz_command` leaves the user with: the "must be between 3 and
30" rejection (line 104-107), one of the error edits of the `except` blocks
(lines 151-176, distinguished here by which exception fired and, for a
non-200 response, by the HTTP status that line 130 embeds in the message),
or the first question of the new quiz. -/
inductive StartOutcome where
  | invalidNumber
  | timeoutError
  | connectionError
  | httpError (status : Nat)
  | started (next : SendOutcome)
deriving DecidableEq, Repr

/-- `true` iff the command created a session and sent the first question. -/
def StartOutcome.isStarted : StartOutcome → Bool
  | .started _ => true
  | _ => false

/-- `quiz_command(update, context)` from `bot.py` lines 76-176, after the
argument split (whose `topic`/`num_questions` results are taken as inputs):
validate the count, call the backend, and on HTTP 200 overwrite
`user_sessions[user_id]` with a fresh session (lines 138-143) and send the
first question (line 149).  Returns the outcome, the store after the call,
and whether the Groq content provider was invoked: `false` when the bot
rejects the count (no HTTP request is made) and when the request never
reaches the backend; on a timeout the backend still processes the request,
so the provider ran exactly when pydantic validation passed. -/
def quiz_command (store : Store) (user_id : Int) (topic : String)
    (num_questions : Int) (call : BackendCall) : StartOutcome × Store × Bool :=
  if num_questions < 3 ∨ 30 < num_questions then
    (.invalidNumber, store, false)
  else
    match call with
    | .timeout => (.timeoutError, store, quizRequestValid topic num_questions)
    | .connectionError => (.connectionError, store, false)
    | .delivered provider =>
      match backend_generate_quiz topic num_questions provider with
      | (.ok t qs, called) =>
        let store1 := store.set user_id ⟨t, qs, 0, 0⟩
        let next := send_question store1 user_id
        (.started next.1, next.2, called)
      | (r, called) => (.httpError (statusOf r), store, called)

/-- Rounding of the percentage to one decimal for display
(`f"{percentage:.1f}"` in the result message, `bot.py` line 202).  For the
score/total pairs reachable here (`total ≤ 30`) the Python float formatting
agrees with exact rounding to the nearest tenth. -/
def displayPercent (p : ℚ) : ℚ := (round (p * 10) : ℤ) / 10

/-- Whether a grading took place, and with which result. -/
def AnswerOutcome.gradedCorrect : AnswerOutcome → Option Bool
  | .graded b _ _ _ => some b
  | _ => none

/-! ## Concrete fixtures used by the per-claim witnesses and counterexamples -/

/-- Fixture question for C1: correct answer `B`. -/
def c1Q : MCQ := ⟨"q?", ⟨"optA", "optB", "optC", "optD"⟩, "B"⟩

/-- Fixture session for C1: a finished 3-question quiz with score 2. -/
def c1Sess : Session := ⟨"Go", [c1Q, c1Q, c1Q], 3, 2⟩

/-- Fixture store for C1. -/
def c1Store : Store := Store.set Store.empty 1 c1Sess

/-- Fixture question for C2. -/
def c2Q : MCQ := ⟨"q?", ⟨"optA", "optB", "optC", "optD"⟩, "A"⟩

/-- Fixture question for C3: correct answer `B`. -/
def c3Q : MCQ := ⟨"q?", ⟨"optA", "optB", "optC", "optD"⟩, "B"⟩

/-- Fixture session for C3: fresh 3-question quiz for user 1. -/
def c3Sess : Session := ⟨"Go", [c3Q, c3Q, c3Q], 0, 0⟩

/-- Fixture store for C3. -/
def c3Store : Store := Store.set Store.empty 1 c3Sess

/-- Fixture question for C4: correct answer `B`. -/
def c4Q : MCQ := ⟨"q?", ⟨"optA", "optB", "optC", "optD"⟩, "B"⟩

/-- Fixture session for C4: fresh 3-question quiz for user 1. -/
def c4Sess : Session := ⟨"Go", [c4Q, c4Q, c4Q], 0, 0⟩

/-- Fixture store for C4. -/
def c4Store : Store := Store.set Store.empty 1 c4Sess

/-- Fixture question for C5: correct answer `D`. -/
def c5Q : MCQ := ⟨"q?", ⟨"optA", "optB", "optC", "optD"⟩, "D"⟩

/-- Fixture session for C5: fresh 3-question quiz for user 2. -/
def c5Sess : Session := ⟨"Py", [c5Q, c5Q, c5Q], 0, 0⟩

/-- Fixture store for C5 (amended-claim witness). -/
def c5Store : Store := Store.empty

/-- Fixture question for C7. -/
def c7Q : MCQ := ⟨"q?", ⟨"optA", "optB", "optC", "optD"⟩, "C"⟩

/-- Fixture store for C7: user 1 already has an in-progress session. -/
def c7Store : Store := Store.set Store.empty 1 ⟨"Rust", [c7Q, c7Q, c7Q], 1, 1⟩

/-- Fixture question for C8. -/
def c8Q : MCQ := ⟨"q?", ⟨"optA", "optB", "optC", "optD"⟩, "B"⟩

/-- Fixture store for C8: a finished 3-question quiz with score 2
(the concrete scenario of the specification). -/
def c8Store : Store := Store.set Store.empty 1 ⟨"Go", [c8Q, c8Q, c8Q], 3, 2⟩

/-! ## Helper lemmas about the store and the handlers -/

theorem Store.get_set_self (st : Store) (u : Int) (s : Session) :
    (st.set u s).get u = some s := by
  simp [Store.get, Store.set]

theorem Store.get_set_ne (st : Store) (u v : Int) (s : Session) (h : v ≠ u) :
    (st.set u s).get v = st.get v := by
  simp [Store.get, Store.set, h]

theorem Store.get_remove_self (st : Store) (u : Int) :
    (st.remove u).get u = none := by
  simp [Store.get, Store.remove]

theorem Store.get_remove_ne (st : Store) (u v : Int) (h : v ≠ u) :
    (st.remove u).get v = st.get v := by
  simp [Store.get, Store.remove, h]

theorem Store.set_set (st : Store) (u : Int) (s t : Session) :
    (st.set u s).set u t = st.set u t := by
  funext v
  by_cases h : v = u <;> simp [Store.set, h]

theorem send_question_no_session (store : Store) (user_id : Int)
    (h : store.get user_id = none) :
    send_question store user_id = (.noSession, store) := by
  unfold send_question
  rw [h]

theorem send_question_finished (store : Store) (user_id : Int) (s : Session)
    (h : store.get user_id = some s)
    (hdone : s.questions.length ≤ s.current_question) :
    send_question store user_id =
      (.showResult s.score s.questions.length
        ((s.score : ℚ) / (s.questions.length : ℚ) * 100)
        (resultTier ((s.score : ℚ) / (s.questions.length : ℚ) * 100)),
       store.remove user_id) := by
  unfold send_question
  rw [h]
  simp only [dif_pos hdone]

theorem send_question_in_progress (store : Store) (user_id : Int)
    (s : Session) (h : store.get user_id = some s)
    (hlt : s.current_question < s.questions.length) :
    send_question store user_id =
      (.showQuestion s.current_question s.questions.length
        (s.questions.get ⟨s.current_question, hlt⟩), store) := by
  unfold send_question
  rw [h]
  simp only [dif_neg (Nat.not_le.mpr hlt)]

theorem answer_callback_parse_none (store : Store) (u : Int) (data : String)
    (h : parseCallbackData data = none) :
    answer_callback store u data = ⟨.parseError, store, store, store⟩ := by
  unfold answer_callback
  rw [h]

theorem answer_callback_parse_some (store : Store) (u : Int) (data : String)
    (label : String) (uid : Int)
    (h : parseCallbackData data = some (label, uid)) :
    answer_callback store u data = answer_callback_core store u label uid := by
  unfold answer_callback
  rw [h]

theorem answer_callback_core_wrong_user (store : Store) (u : Int)
    (label : String) (uid : Int) (h : u ≠ uid) :
    answer_callback_core store u label uid = ⟨.notYourQuiz, store, store, store⟩ := by
  unfold answer_callback_core
  rw [if_pos h]

theorem answer_callback_core_no_session (store : Store) (label : String)
    (uid : Int) (h : store.get uid = none) :
    answer_callback_core store uid label uid = ⟨.noSession, store, store, store⟩ := by
  unfold answer_callback_core
  rw [if_neg (fun hne => hne rfl), h]

theorem answer_callback_core_session (store : Store) (label : String)
    (uid : Int) (s : Session) (h : store.get uid = some s) :
    answer_callback_core store uid label uid = grade_answer store uid label s := by
  unfold answer_callback_core
  rw [if_neg (fun hne => hne rfl), h]

theorem grade_answer_in_bounds (store : Store) (uid : Int) (label : String)
    (s : Session) (hidx : s.current_question < s.questions.length) :
    grade_answer store uid label s =
      ⟨.graded (label == (s.questions.get ⟨s.current_question, hidx⟩).correct_answer)
         label (s.questions.get ⟨s.current_question, hidx⟩).correct_answer
         (send_question (store.set uid (advancedSession s
           (label == (s.questions.get ⟨s.current_question, hidx⟩).correct_answer))) uid).1,
       store.set uid (gradedSession s
         (label == (s.questions.get ⟨s.current_question, hidx⟩).correct_answer)),
       store.set uid (advancedSession s
         (label == (s.questions.get ⟨s.current_question, hidx⟩).correct_answer)),
       (send_question (store.set uid (advancedSession s
         (label == (s.questions.get ⟨s.current_question, hidx⟩).correct_answer))) uid).2⟩ := by
  unfold grade_answer
  rw [dif_neg (Nat.not_le.mpr hidx)]
  simp only [Store.set_set]

theorem backend_generate_quiz_valid (topic : String) (n : Int)
    (provider : ProviderResult) (hvalid : quizRequestValid topic n = true) :
    backend_generate_quiz topic n provider =
      (match provider with
       | .ok qs => (.ok topic qs, true)
       | .jsonError => (.badRequest, true)
       | .upstreamError => (.serverError, true)) := by
  unfold backend_generate_quiz
  rw [if_pos hvalid]

theorem backend_generate_quiz_invalid (topic : String) (n : Int)
    (provider : ProviderResult) (hvalid : quizRequestValid topic n = false) :
    backend_generate_quiz topic n provider = (.validationError, false) := by
  unfold backend_generate_quiz
  rw [if_neg (by simp [hvalid])]

theorem quiz_command_bad_count (store : Store) (uid : Int) (topic : String)
    (n : Int) (call : BackendCall) (hcount : n < 3 ∨ 30 < n) :
    quiz_command store uid topic n call = (.invalidNumber, store, false) := by
  unfold quiz_command
  rw [if_pos hcount]

theorem quiz_command_timeout (store : Store) (uid : Int) (topic : String)
    (n : Int) (hno : ¬ (n < 3 ∨ 30 < n)) :
    quiz_command store uid topic n .timeout =
      (.timeoutError, store, quizRequestValid topic n) := by
  unfold quiz_command
  rw [if_neg hno]

theorem quiz_command_connection_error (store : Store) (uid : Int)
    (topic : String) (n : Int) (hno : ¬ (n < 3 ∨ 30 < n)) :
    quiz_command store uid topic n .connectionError =
      (.connectionError, store, false) := by
  unfold quiz_command
  rw [if_neg hno]

theorem quiz_command_delivered (store : Store) (uid : Int) (topic : String)
    (n : Int) (provider : ProviderResult) (hno : ¬ (n < 3 ∨ 30 < n)) :
    quiz_command store uid topic n (.delivered provider) =
      (match backend_generate_quiz topic n provider with
       | (.ok t qs, called) =>
         (.started (send_question (store.set uid ⟨t, qs, 0, 0⟩) uid).1,
          (send_question (store.set uid ⟨t, qs, 0, 0⟩) uid).2, called)
       | (r, called) => (.httpError (statusOf r), store, called)) := by
  unfold quiz_command
  rw [if_neg hno]

/-! ## C10 — a press by a foreign user is rejected with no state change -/

/-- C10: for every answer callback whose embedded owner id differs from the
id of the user who pressed the button, `answer_callback` answers with the
"not your quiz" alert and returns before the session lookup: no grading, no
session removal, and the store is unchanged at every observable point of the
handler. -/
theorem c10_foreign_press_rejected (store : Store) (effectiveUser : Int)
    (data label : String) (uid : Int)
    (hparse : parseCallbackData data = some (label, uid))
    (hne : effectiveUser ≠ uid) :
    (answer_callback store effectiveUser data).outcome = .notYourQuiz ∧
    (answer_callback store effectiveUser data).midStore = store ∧
    (answer_callback store effectiveUser data).advStore = store ∧
    (answer_callback store effectiveUser data).finalStore = store := by
  rw [answer_callback_parse_some store effectiveUser data label uid hparse,
    answer_callback_core_wrong_user store effectiveUser label uid hne]
  exact ⟨rfl, rfl, rfl, rfl⟩

/-- Witness for C10: user 5 presses a button created for owner 1. -/
theorem c10_witness :
    (answer_callback Store.empty 5 "answer_A_1").outcome = .notYourQuiz ∧
    (answer_callback Store.empty 5 "answer_A_1").midStore = Store.empty ∧
    (answer_callback Store.empty 5 "answer_A_1").advStore = Store.empty ∧
    (answer_callback Store.empty 5 "answer_A_1").finalStore = Store.empty :=
  c10_foreign_press_rejected Store.empty 5 "answer_A_1" "A" 1 (by decide)
    (by decide)

/-! ## C5 — labels are not validated -/

/-- C5 counterexample: the claim requires a submission with label "E" and no
active session to yield `InvalidInput`, not `NoActiveSession`, with the
label validated before the session lookup.  `answer_callback` contains no
label validation at all: the submission `answer_E_2` from user 2 on an empty
store is answered with the session-expired message, i.e. `NoActiveSession`. -/
theorem c5_counterexample :
    (answer_callback Store.empty 2 "answer_E_2").outcome = .noSession := by
  decide

/-- C5 (amended): `answer_callback` never validates the selected label.
With no active session, any submission — whatever its label — is answered
with `NoActiveSession`; with an active session an arbitrary label is graded
against the stored correct answer, so a label outside {A,B,C,D} is graded
incorrect (the correct answer always lies in {A,B,C,D}) and still advances
`current_question` by 1, leaving the score unchanged. -/
theorem c5_labels_not_validated (store : Store) (data label : String)
    (uid : Int) (s : Session)
    (hparse : parseCallbackData data = some (label, uid))
    (hlabel : ¬ validLabel label)
    (hidx : s.current_question < s.questions.length)
    (hcorr : validLabel
      (s.questions.get ⟨s.current_question, hidx⟩).correct_answer) :
    (answer_callback (store.remove uid) uid data).outcome = .noSession ∧
    (answer_callback (store.set uid s) uid data).outcome.gradedCorrect =
      some false ∧
    ((answer_callback (store.set uid s) uid data).advStore).get uid =
      some { s with current_question := s.current_question + 1 } := by
  have hne : label ≠ (s.questions.get ⟨s.current_question, hidx⟩).correct_answer :=
    fun he => hlabel (by rw [he]; exact hcorr)
  have hbeq : (label == (s.questions.get ⟨s.current_question, hidx⟩).correct_answer)
      = false := beq_eq_false_iff_ne.mpr hne
  refine ⟨?_, ?_, ?_⟩
  · rw [answer_callback_parse_some _ _ _ _ _ hparse,
      answer_callback_core_no_session _ _ _ (Store.get_remove_self store uid)]
  · rw [answer_callback_parse_some _ _ _ _ _ hparse,
      answer_callback_core_session _ _ _ _ (Store.get_set_self store uid s),
      grade_answer_in_bounds _ _ _ _ hidx]
    rw [AnswerOutcome.gradedCorrect, hbeq]
  · rw [answer_callback_parse_some _ _ _ _ _ hparse,
      answer_callback_core_session _ _ _ _ (Store.get_set_self store uid s),
      grade_answer_in_bounds _ _ _ _ hidx]
    show ((store.set uid s).set uid _).get uid = _
    rw [Store.set_set, Store.get_set_self, hbeq]
    rfl

/-- Witness for C5 (amended): label "E" on an empty store for user 2, and on
a store where user 2 has a fresh three-question session whose first correct
answer is "D". -/
theorem c5_witness :
    (answer_callback (c5Store.remove 2) 2 "answer_E_2").outcome = .noSession ∧
    (answer_callback (c5Store.set 2 c5Sess) 2 "answer_E_2").outcome.gradedCorrect =
      some false ∧
    ((answer_callback (c5Store.set 2 c5Sess) 2 "answer_E_2").advStore).get 2 =
      some { c5Sess with current_question := c5Sess.current_question + 1 } :=
  c5_labels_not_validated c5Store "answer_E_2" "E" 2 c5Sess (by decide)
    (by decide) (by decide) (by decide)

/-! ## C9 — malformed callback data raises instead of a typed outcome -/

/-- C9 counterexample: the callback data "answer_A_x" matches the handler
pattern `^answer_` but its third component is not an integer, so lines
272-273 of `answer_callback` raise an uncaught `ValueError` (`parseError` in
this embedding) instead of returning a typed outcome — refuting the claim
that the core never raises on malformed external input. -/
theorem c9_counterexample :
    (answer_callback Store.empty 2 "answer_A_x").outcome = .parseError := by
  decide

/-- C9 (amended): for well-formed callback data `answer_<label>_<integer>`
acting on a store where the embedded owner's session — when present — has
`current_question` in bounds, `answer_callback` returns a typed outcome: it
reaches neither the `ValueError` of the data parse (lines 272-273) nor the
`IndexError` of the question lookup (line 290).  Data matching `^answer_`
but not of that shape makes the handler raise; only the hosting framework
(outside this repository) contains the exception. -/
theorem c9_wellformed_typed_outcome (store : Store) (u : Int)
    (data label : String) (uid : Int)
    (hparse : parseCallbackData data = some (label, uid))
    (hbound : ∀ s, store.get uid = some s →
      s.current_question < s.questions.length) :
    (answer_callback store u data).outcome ≠ .parseError ∧
    (answer_callback store u data).outcome ≠ .indexError := by
  rw [answer_callback_parse_some store u data label uid hparse]
  by_cases hu : u ≠ uid
  · rw [answer_callback_core_wrong_user store u label uid hu]
    exact ⟨(fun h => nomatch h), (fun h => nomatch h)⟩
  · have hu' : u = uid := not_not.mp hu
    subst hu'
    cases hget : store.get u with
    | none =>
      rw [answer_callback_core_no_session store label u hget]
      exact ⟨(fun h => nomatch h), (fun h => nomatch h)⟩
    | some s =>
      rw [answer_callback_core_session store label u s hget,
        grade_answer_in_bounds store u label s (hbound s hget)]
      exact ⟨(fun h => nomatch h), (fun h => nomatch h)⟩

/-- Witness for C9 (amended): well-formed data `answer_B_1` on the empty
store. -/
theorem c9_witness :
    (answer_callback Store.empty 1 "answer_B_1").outcome ≠ .parseError ∧
    (answer_callback Store.empty 1 "answer_B_1").outcome ≠ .indexError :=
  c9_wellformed_typed_outcome Store.empty 1 "answer_B_1" "B" 1 (by decide)
    (fun s h => nomatch h)

/-! ## C3 — an accepted answer advances by one and scores the grade -/

/-- C3: an accepted answer on an active session increases
`current_question` by exactly 1 and `score` by exactly 1 when the selected
label equals `questions[current_question].correct_answer`, by 0 otherwise;
topic and question list are untouched.  Stated of the store at the advance
point of the handler (after line 334 of `bot.py`). -/
theorem c3_answer_updates_session (store : Store) (data label : String)
    (uid : Int) (s : Session)
    (hparse : parseCallbackData data = some (label, uid))
    (hget : store.get uid = some s)
    (hidx : s.current_question < s.questions.length) :
    ((answer_callback store uid data).advStore).get uid =
      some { topic := s.topic, questions := s.questions,
             current_question := s.current_question + 1,
             score := s.score +
               (if label = (s.questions.get ⟨s.current_question, hidx⟩).correct_answer
                then 1 else 0) } := by
  rw [answer_callback_parse_some store uid data label uid hparse,
    answer_callback_core_session store label uid s hget,
    grade_answer_in_bounds store uid label s hidx]
  show (store.set uid _).get uid = _
  rw [Store.get_set_self]
  by_cases hb : label = (s.questions.get ⟨s.current_question, hidx⟩).correct_answer
  · rw [beq_iff_eq.mpr hb, if_pos hb]; exact rfl
  · rw [beq_eq_false_iff_ne.mpr hb, if_neg hb]; exact rfl

/-- Witness for C3: user 1 answers the first question of a fresh
three-question session; "B" is correct, so the score becomes 1 and the
index 1. -/
theorem c3_witness :
    ((answer_callback c3Store 1 "answer_B_1").advStore).get 1 =
      some { topic := c3Sess.topic, questions := c3Sess.questions,
             current_question := c3Sess.current_question + 1,
             score := c3Sess.score +
               (if "B" = (c3Sess.questions.get ⟨c3Sess.current_question, by decide⟩).correct_answer
                then 1 else 0) } :=
  c3_answer_updates_session c3Store "answer_B_1" "B" 1 c3Sess (by decide)
    (by decide) (by decide)

/-! ## C4 — the score/index invariant and its in-handler violation -/

/-- C4 counterexample: the claim requires `score ≤ currentIndex` at every
observable point, including between the externally visible steps inside the
answer handler.  At the `edit_message_text` await of `answer_callback`
(line 331 of `bot.py`) the score of a just-correctly-answered question is
already incremented (line 300) while `current_question` has not yet advanced
(line 334): answering question 1 of a fresh session correctly leaves the
store, at that observable point, with `score = 1 > 0 = current_question`. -/
theorem c4_counterexample :
    Option.all (fun m => m.score ≤ m.current_question)
      ((answer_callback c4Store 1 "answer_B_1").midStore.get 1) = false := by
  decide

/-- C4 (amended): `0 ≤ score` and `currentIndex ≤ N` hold at every
observable point, and `score ≤ currentIndex` holds at the boundaries of
`SubmitAnswer`; at the single observable point inside the handler between
the grading (line 300) and the advance (line 334) the bound is
`score ≤ currentIndex + 1 ≤ N` instead, the excess occurring exactly when
the answer was correct.  After the advance the session again satisfies
`score ≤ currentIndex ≤ N`, and the chained `send_question` either keeps it
or — when the quiz completed — removes it. -/
theorem c4_amended_invariant (store : Store) (data label : String)
    (uid : Int) (s : Session)
    (hparse : parseCallbackData data = some (label, uid))
    (hget : store.get uid = some s)
    (hscore : s.score ≤ s.current_question)
    (hidx : s.current_question < s.questions.length) :
    ((answer_callback store uid data).midStore.get uid =
      some (gradedSession s
        (label == (s.questions.get ⟨s.current_question, hidx⟩).correct_answer))) ∧
    ((gradedSession s
        (label == (s.questions.get ⟨s.current_question, hidx⟩).correct_answer)).score ≤
      (gradedSession s
        (label == (s.questions.get ⟨s.current_question, hidx⟩).correct_answer)).current_question + 1) ∧
    ((gradedSession s
        (label == (s.questions.get ⟨s.current_question, hidx⟩).correct_answer)).current_question + 1 ≤
      (gradedSession s
        (label == (s.questions.get ⟨s.current_question, hidx⟩).correct_answer)).questions.length) ∧
    ((answer_callback store uid data).advStore.get uid =
      some (advancedSession s
        (label == (s.questions.get ⟨s.current_question, hidx⟩).correct_answer))) ∧
    ((advancedSession s
        (label == (s.questions.get ⟨s.current_question, hidx⟩).correct_answer)).score ≤
      (advancedSession s
        (label == (s.questions.get ⟨s.current_question, hidx⟩).correct_answer)).current_question) ∧
    ((advancedSession s
        (label == (s.questions.get ⟨s.current_question, hidx⟩).correct_answer)).current_question ≤
      (advancedSession s
        (label == (s.questions.get ⟨s.current_question, hidx⟩).correct_answer)).questions.length) ∧
    ((answer_callback store uid data).finalStore.get uid =
      if s.current_question + 1 = s.questions.length then none
      else some (advancedSession s
        (label == (s.questions.get ⟨s.current_question, hidx⟩).correct_answer))) := by
  rw [answer_callback_parse_some store uid data label uid hparse,
    answer_callback_core_session store label uid s hget,
    grade_answer_in_bounds store uid label s hidx]
  set b := (label == (s.questions.get ⟨s.current_question, hidx⟩).correct_answer)
    with hb
  have hgs_q : (gradedSession s b).current_question = s.current_question := by
    cases b <;> rfl
  have hgs_len : (gradedSession s b).questions.length = s.questions.length := by
    cases b <;> rfl
  have hgs_score : (gradedSession s b).score ≤ s.score + 1 := by
    cases b <;> simp [gradedSession]
  have hadv_get : (Store.set store uid (advancedSession s b)).get uid =
      some (advancedSession s b) := Store.get_set_self _ _ _
  have hadv_q : (advancedSession s b).current_question = s.current_question + 1 := by
    rw [advancedSession, hgs_q]
  have hadv_len : (advancedSession s b).questions.length = s.questions.length := by
    rw [advancedSession]; exact hgs_len
  have hadv_score : (advancedSession s b).score ≤ s.score + 1 := by
    rw [advancedSession]; exact hgs_score
  refine ⟨Store.get_set_self _ _ _, ?_, ?_, hadv_get, ?_, ?_, ?_⟩
  · rw [hgs_q]; exact le_trans hgs_score (by omega)
  · rw [hgs_q, hgs_len]; omega
  · rw [hadv_q]; exact le_trans hadv_score (by omega)
  · rw [hadv_q, hadv_len]; omega
  · by_cases hend : s.current_question + 1 = s.questions.length
    · rw [if_pos hend]
      show (send_question (Store.set store uid (advancedSession s b)) uid).2.get uid = none
      rw [send_question_finished _ uid (advancedSession s b) hadv_get
        (by rw [hadv_q, hadv_len]; omega)]
      exact Store.get_remove_self _ _
    · rw [if_neg hend]
      show (send_question (Store.set store uid (advancedSession s b)) uid).2.get uid = _
      rw [send_question_in_progress _ uid (advancedSession s b) hadv_get
        (by rw [hadv_q, hadv_len]; omega)]
      exact hadv_get

/-- Witness for C4 (amended): user 1 answers question 1 of a fresh
three-question session with the correct label "B". -/
theorem c4_witness :
    ((answer_callback c4Store 1 "answer_B_1").midStore.get 1 =
      some (gradedSession c4Sess
        ("B" == (c4Sess.questions.get ⟨c4Sess.current_question, by decide⟩).correct_answer))) ∧
    ((gradedSession c4Sess
        ("B" == (c4Sess.questions.get ⟨c4Sess.current_question, by decide⟩).correct_answer)).score ≤
      (gradedSession c4Sess
        ("B" == (c4Sess.questions.get ⟨c4Sess.current_question, by decide⟩).correct_answer)).current_question + 1) ∧
    ((gradedSession c4Sess
        ("B" == (c4Sess.questions.get ⟨c4Sess.current_question, by decide⟩).correct_answer)).current_question + 1 ≤
      (gradedSession c4Sess
        ("B" == (c4Sess.questions.get ⟨c4Sess.current_question, by decide⟩).correct_answer)).questions.length) ∧
    ((answer_callback c4Store 1 "answer_B_1").advStore.get 1 =
      some (advancedSession c4Sess
        ("B" == (c4Sess.questions.get ⟨c4Sess.current_question, by decide⟩).correct_answer))) ∧
    ((advancedSession c4Sess
        ("B" == (c4Sess.questions.get ⟨c4Sess.current_question, by decide⟩).correct_answer)).score ≤
      (advancedSession c4Sess
        ("B" == (c4Sess.questions.get ⟨c4Sess.current_question, by decide⟩).correct_answer)).current_question) ∧
    ((advancedSession c4Sess
        ("B" == (c4Sess.questions.get ⟨c4Sess.current_question, by decide⟩).correct_answer)).current_question ≤
      (advancedSession c4Sess
        ("B" == (c4Sess.questions.get ⟨c4Sess.current_question, by decide⟩).correct_answer)).questions.length) ∧
    ((answer_callback c4Store 1 "answer_B_1").finalStore.get 1 =
      if c4Sess.current_question + 1 = c4Sess.questions.length then none
      else some (advancedSession c4Sess
        ("B" == (c4Sess.questions.get ⟨c4Sess.current_question, by decide⟩).correct_answer))) :=
  c4_amended_invariant c4Store "answer_B_1" "B" 1 c4Sess (by decide) (by decide)
    (by decide) (by decide)

/-! ## C1 — completion reports the result, removes the session, and later
operations find no session -/

/-- C1: when `send_question` runs on a session whose `current_question`
equals the number `N` of questions, it emits `ShowResult` with percentage
`100*score/N` and removes the owner's session; on the resulting store a
further `send_question` and a further answer submission by the owner are
both answered with `NoActiveSession`, and they leave the store unchanged, so
every subsequent such operation keeps yielding `NoActiveSession`. -/
theorem c1_completion_removes_session (store : Store) (uid : Int)
    (s : Session) (data label : String)
    (hget : store.get uid = some s)
    (hdone : s.current_question = s.questions.length)
    (hparse : parseCallbackData data = some (label, uid)) :
    (send_question store uid).1 =
      .showResult s.score s.questions.length
        (100 * (s.score : ℚ) / (s.questions.length : ℚ))
        (resultTier (100 * (s.score : ℚ) / (s.questions.length : ℚ))) ∧
    (send_question store uid).2.get uid = none ∧
    (send_question ((send_question store uid).2) uid).1 = .noSession ∧
    (send_question ((send_question store uid).2) uid).2 =
      (send_question store uid).2 ∧
    (answer_callback ((send_question store uid).2) uid data).outcome =
      .noSession ∧
    (answer_callback ((send_question store uid).2) uid data).finalStore =
      (send_question store uid).2 := by
  have hfin := send_question_finished store uid s hget hdone.symm.le
  have hp : (s.score : ℚ) / (s.questions.length : ℚ) * 100
      = 100 * (s.score : ℚ) / (s.questions.length : ℚ) := by ring
  rw [hp] at hfin
  have hnone : (send_question store uid).2.get uid = none := by
    rw [hfin]; exact Store.get_remove_self store uid
  have hsq := send_question_no_session _ uid hnone
  have hac : answer_callback ((send_question store uid).2) uid data =
      ⟨.noSession, (send_question store uid).2, (send_question store uid).2,
       (send_question store uid).2⟩ := by
    rw [answer_callback_parse_some _ uid data label uid hparse,
      answer_callback_core_no_session _ label uid hnone]
  refine ⟨?_, hnone, ?_, ?_, ?_, ?_⟩
  · rw [hfin]
  · rw [hsq]
  · rw [hsq]
  · rw [hac]
  · rw [hac]

/-- Witness for C1: user 1's finished three-question session with score 2;
the buttons of the stale last question embed owner 1. -/
theorem c1_witness :
    (send_question c1Store 1).1 =
      .showResult c1Sess.score c1Sess.questions.length
        (100 * (c1Sess.score : ℚ) / (c1Sess.questions.length : ℚ))
        (resultTier (100 * (c1Sess.score : ℚ) / (c1Sess.questions.length : ℚ))) ∧
    (send_question c1Store 1).2.get 1 = none ∧
    (send_question ((send_question c1Store 1).2) 1).1 = .noSession ∧
    (send_question ((send_question c1Store 1).2) 1).2 =
      (send_question c1Store 1).2 ∧
    (answer_callback ((send_question c1Store 1).2) 1 "answer_A_1").outcome =
      .noSession ∧
    (answer_callback ((send_question c1Store 1).2) 1 "answer_A_1").finalStore =
      (send_question c1Store 1).2 :=
  c1_completion_removes_session c1Store 1 c1Sess "answer_A_1" "A"
    (Store.get_set_self Store.empty 1 c1Sess) rfl (by decide)

/-! ## C2 — a successful start stores a fresh session of the right size -/

/-- C2: for a valid count and topic, with the content provider delivering a
list of exactly `count` parsed questions (its documented contract),
`quiz_command` succeeds and the owner's stored session has
`current_question = 0`, `score = 0`, and exactly that question list. -/
theorem c2_start_creates_fresh_session (store : Store) (uid : Int)
    (topic : String) (n : Int) (qs : List MCQ)
    (h3 : 3 ≤ n) (h30 : n ≤ 30)
    (ht1 : 1 ≤ topic.length) (ht2 : topic.length ≤ 100)
    (hlen : (qs.length : Int) = n) :
    (quiz_command store uid topic n (.delivered (.ok qs))).1.isStarted = true ∧
    (quiz_command store uid topic n (.delivered (.ok qs))).2.1.get uid =
      some { topic := topic, questions := qs, current_question := 0, score := 0 } ∧
    ((quiz_command store uid topic n (.delivered (.ok qs))).2.1.get uid).map
      (fun s => (s.questions.length : Int)) = some n := by
  have hvalid : quizRequestValid topic n = true := by
    simp [quizRequestValid]
    omega
  have hno : ¬ (n < 3 ∨ 30 < n) := by omega
  have hpos : (0 : Nat) < qs.length := by omega
  have hq : quiz_command store uid topic n (.delivered (.ok qs)) =
      (.started (send_question
          (store.set uid ⟨topic, qs, 0, 0⟩) uid).1,
        (send_question (store.set uid ⟨topic, qs, 0, 0⟩) uid).2, true) := by
    rw [quiz_command_delivered store uid topic n (.ok qs) hno,
      backend_generate_quiz_valid topic n (.ok qs) hvalid]
  have hsq := send_question_in_progress (store.set uid ⟨topic, qs, 0, 0⟩) uid
    ⟨topic, qs, 0, 0⟩ (Store.get_set_self store uid _) hpos
  rw [hq, hsq]
  refine ⟨rfl, Store.get_set_self store uid _, ?_⟩
  rw [Store.get_set_self store uid _]
  simpa using hlen

/-- Witness for C2: `/quiz Go 4` with the provider returning four
questions. -/
theorem c2_witness :
    (quiz_command Store.empty 1 "Go" 4
      (.delivered (.ok [c2Q, c2Q, c2Q, c2Q]))).1.isStarted = true ∧
    (quiz_command Store.empty 1 "Go" 4
      (.delivered (.ok [c2Q, c2Q, c2Q, c2Q]))).2.1.get 1 =
      some { topic := "Go", questions := [c2Q, c2Q, c2Q, c2Q],
             current_question := 0, score := 0 } ∧
    ((quiz_command Store.empty 1 "Go" 4
      (.delivered (.ok [c2Q, c2Q, c2Q, c2Q]))).2.1.get 1).map
      (fun s => (s.questions.length : Int)) = some 4 :=
  c2_start_creates_fresh_session Store.empty 1 "Go" 4 [c2Q, c2Q, c2Q, c2Q]
    (by decide) (by decide) (by decide) (by decide) (by decide)

/-! ## C6 — invalid start parameters are rejected without effect -/

/-- C6: a `/quiz` request whose count lies outside `[3, 30]` or whose topic
is empty or longer than 100 characters never starts a quiz, leaves the
session store untouched, and the Groq content provider is never invoked;
when the backend is reached at all (request delivered), the surfaced error
is the bot's own count rejection or the pydantic validation failure
(HTTP 422) — never a content failure. -/
theorem c6_invalid_request_rejected (store : Store) (uid : Int)
    (topic : String) (n : Int) (call : BackendCall) (provider : ProviderResult)
    (hbad : n < 3 ∨ 30 < n ∨ topic.length = 0 ∨ 100 < topic.length) :
    (quiz_command store uid topic n call).1.isStarted = false ∧
    (quiz_command store uid topic n call).2.1 = store ∧
    (quiz_command store uid topic n call).2.2 = false ∧
    ((quiz_command store uid topic n (.delivered provider)).1 =
        .invalidNumber ∨
      (quiz_command store uid topic n (.delivered provider)).1 =
        .httpError 422) := by
  by_cases hcount : n < 3 ∨ 30 < n
  · rw [quiz_command_bad_count store uid topic n call hcount,
      quiz_command_bad_count store uid topic n (.delivered provider) hcount]
    exact ⟨rfl, rfl, rfl, Or.inl rfl⟩
  · have htopic : topic.length = 0 ∨ 100 < topic.length := by
      rcases hbad with h | h | h | h
      · exact absurd (Or.inl h) hcount
      · exact absurd (Or.inr h) hcount
      · exact Or.inl h
      · exact Or.inr h
    have hvalid : quizRequestValid topic n = false := by
      simp [quizRequestValid]
      intro h1 h2
      omega
    have hdel : ∀ p, quiz_command store uid topic n (.delivered p) =
        (.httpError 422, store, false) := by
      intro p
      rw [quiz_command_delivered store uid topic n p hcount,
        backend_generate_quiz_invalid topic n p hvalid]
      exact rfl
    have hc : (quiz_command store uid topic n call).1.isStarted = false ∧
        (quiz_command store uid topic n call).2.1 = store ∧
        (quiz_command store uid topic n call).2.2 = false := by
      cases call with
      | timeout =>
        rw [quiz_command_timeout store uid topic n hcount]
        exact ⟨rfl, rfl, hvalid⟩
      | connectionError =>
        rw [quiz_command_connection_error store uid topic n hcount]
        exact ⟨rfl, rfl, rfl⟩
      | delivered p =>
        rw [hdel p]
        exact ⟨rfl, rfl, rfl⟩
    exact ⟨hc.1, hc.2.1, hc.2.2, Or.inr (by rw [hdel provider])⟩

/-- Witness for C6: `/quiz Go 2` (count below the minimum), with a healthy
provider behind a delivered backend call. -/
theorem c6_witness :
    (quiz_command Store.empty 1 "Go" 2 (.delivered (.ok []))).1.isStarted = false ∧
    (quiz_command Store.empty 1 "Go" 2 (.delivered (.ok []))).2.1 = Store.empty ∧
    (quiz_command Store.empty 1 "Go" 2 (.delivered (.ok []))).2.2 = false ∧
    ((quiz_command Store.empty 1 "Go" 2 (.delivered (.ok []))).1 =
        .invalidNumber ∨
      (quiz_command Store.empty 1 "Go" 2 (.delivered (.ok []))).1 =
        .httpError 422) :=
  c6_invalid_request_rejected Store.empty 1 "Go" 2 (.delivered (.ok []))
    (.ok []) (Or.inl (by decide))

/-! ## C7 — a content failure surfaces an error and touches no session -/

/-- C7: when the content generation fails — the HTTP call times out, the
provider's payload is malformed (HTTP 400), or the provider errors upstream
(HTTP 500) — `quiz_command` surfaces the corresponding error and the session
store is left exactly as it was: no session is created and a prior active
session of the owner is unchanged. -/
theorem c7_content_failure_leaves_store (store : Store) (uid : Int)
    (topic : String) (n : Int) (call : BackendCall)
    (h3 : 3 ≤ n) (h30 : n ≤ 30)
    (ht1 : 1 ≤ topic.length) (ht2 : topic.length ≤ 100)
    (hfail : call = .timeout ∨ call = .delivered .jsonError ∨
      call = .delivered .upstreamError) :
    ((quiz_command store uid topic n call).1 = .timeoutError ∨
      (quiz_command store uid topic n call).1 = .httpError 400 ∨
      (quiz_command store uid topic n call).1 = .httpError 500) ∧
    (quiz_command store uid topic n call).2.1 = store := by
  have hno : ¬ (n < 3 ∨ 30 < n) := by omega
  have hvalid : quizRequestValid topic n = true := by
    simp [quizRequestValid]
    omega
  rcases hfail with h | h | h <;> subst h
  · rw [quiz_command_timeout store uid topic n hno]
    exact ⟨Or.inl rfl, rfl⟩
  · rw [quiz_command_delivered store uid topic n .jsonError hno,
      backend_generate_quiz_valid topic n .jsonError hvalid]
    exact ⟨Or.inr (Or.inl rfl), rfl⟩
  · rw [quiz_command_delivered store uid topic n .upstreamError hno,
      backend_generate_quiz_valid topic n .upstreamError hvalid]
    exact ⟨Or.inr (Or.inr rfl), rfl⟩

/-- Witness for C7: the backend call times out while user 1 already has an
in-progress session; that session survives untouched. -/
theorem c7_witness :
    ((quiz_command c7Store 1 "Go" 5 .timeout).1 = .timeoutError ∨
      (quiz_command c7Store 1 "Go" 5 .timeout).1 = .httpError 400 ∨
      (quiz_command c7Store 1 "Go" 5 .timeout).1 = .httpError 500) ∧
    (quiz_command c7Store 1 "Go" 5 .timeout).2.1 = c7Store :=
  c7_content_failure_leaves_store c7Store 1 "Go" 5 .timeout (by decide)
    (by decide) (by decide) (by decide) (Or.inl rfl)

/-! ## C8 — tier thresholds, inclusive on the lower bound -/

/-- C8: the displayed tier is a function of the percentage `p = 100*score/N`
with `p ≥ 80` the top tier, `60 ≤ p < 80` the middle tier and `p < 60` the
low tier, each threshold inclusive on its lower bound; in the concrete
scenario of a finished 3-question quiz with score 2, `send_question` reports
percentage `2/3*100 = 100*2/3` (displayed as 66.7) and the middle tier. -/
theorem c8_tier_thresholds (p : ℚ) :
    (resultTier p = .top ↔ 80 ≤ p) ∧
    (resultTier p = .middle ↔ 60 ≤ p ∧ p < 80) ∧
    (resultTier p = .low ↔ p < 60) ∧
    (send_question c8Store 1).1 =
      .showResult 2 3 ((2 : ℚ) / 3 * 100) (resultTier ((2 : ℚ) / 3 * 100)) ∧
    (2 : ℚ) / 3 * 100 = 100 * 2 / 3 ∧
    resultTier ((2 : ℚ) / 3 * 100) = .middle ∧
    displayPercent ((2 : ℚ) / 3 * 100) = 667 / 10 := by
  have hmid : resultTier ((2 : ℚ) / 3 * 100) = .middle := by
    unfold resultTier
    rw [if_neg (by norm_num), if_pos (by norm_num)]
  refine ⟨?_, ?_, ?_, ?_, by norm_num, hmid, ?_⟩
  · unfold resultTier
    split_ifs with h1 h2
    · simp [h1]
    · simp; linarith
    · simp; linarith
  · unfold resultTier
    split_ifs with h1 h2
    · simp
      intros
      linarith
    · simp
      exact ⟨h2, by linarith⟩
    · simp
      intros
      linarith
  · unfold resultTier
    split_ifs with h1 h2
    · simp
      linarith
    · simp
      linarith
    · simp
      linarith
  · have hc8 : c8Store.get 1 = some ⟨"Go", [c8Q, c8Q, c8Q], 3, 2⟩ :=
      Store.get_set_self Store.empty 1 _
    rw [send_question_finished c8Store 1 ⟨"Go", [c8Q, c8Q, c8Q], 3, 2⟩ hc8
      (by decide)]
    norm_num
  · norm_num [displayPercent, round_eq]

/-- Witness for C8: the tier characterization instantiated at the concrete
scenario's percentage `2/3*100`. -/
theorem c8_witness :
    (resultTier ((2 : ℚ) / 3 * 100) = .top ↔ 80 ≤ (2 : ℚ) / 3 * 100) ∧
    (resultTier ((2 : ℚ) / 3 * 100) = .middle ↔
      60 ≤ (2 : ℚ) / 3 * 100 ∧ (2 : ℚ) / 3 * 100 < 80) ∧
    (resultTier ((2 : ℚ) / 3 * 100) = .low ↔ (2 : ℚ) / 3 * 100 < 60) ∧
    (send_question c8Store 1).1 =
      .showResult 2 3 ((2 : ℚ) / 3 * 100) (resultTier ((2 : ℚ) / 3 * 100)) ∧
    (2 : ℚ) / 3 * 100 = 100 * 2 / 3 ∧
    resultTier ((2 : ℚ) / 3 * 100) = .middle ∧
    displayPercent ((2 : ℚ) / 3 * 100) = 667 / 10 :=
  c8_tier_thresholds ((2 : ℚ) / 3 * 100)

end AIQuiz
